import Mathlib

/-!
# Verification of the LinkedIn inline-connect core (`browse.py`, `BrowserClient.py`)

Shallow embedding of the card-evaluation and inline-action state machine:

* the Insight Parser (`get_mutual_connection_count_from_card_insights_text`),
* the Inline Connect Actuator (`__send_connect_inline`),
* the Card Eligibility Gate (`send_connect_inline`),
* the Search Result Collector (`get_search_results`),
* the browsing-session lookup wrapper (`BrowserClient.find_element`).

Python exceptions are modelled by an explicit `Exc` sum type and `Except`;
a Python `try/except (A, B, C)` block is modelled by `tryExcept`, which
re-raises any exception not in the caught list.  Selenium element handles are
modelled by records that carry the outcome of each lookup / property access /
click the source performs on them; within one processing pass these outcomes
are fixed (the source holds the handle only inside a single synchronous span).
UI side effects (lookups, clicks) are recorded in an explicit `UIAction` trace.
-/

/-- Exception kinds that occur in `browse.py` / `BrowserClient.py`.
The first three are the selenium lookup exceptions caught at `find_element`
call sites; the next four are the selenium click exceptions; `attributeError`
is Python's `AttributeError` (raised e.g. by `None.text`); the rest are the
custom exception classes declared at the top of `browse.py`. -/
inductive Exc where
  | noSuchElement
  | staleElementReference
  | invalidSelector
  | elementNotInteractable
  | elementClickIntercepted
  | invalidElementState
  | attributeError
  | insightsNotFound
  | insightParse
  | lowMutualConnections
  | connectButtonError
  | popupButtonError
  | inlineConnect
  deriving DecidableEq, Repr

/-- Outcome of a raw selenium `element.find_element` call: it throws one of
these three exception kinds when the lookup fails (`browse.py` catches exactly
this triple at each card-scoped lookup site). -/
inductive SelFindErr where
  | noSuchElement
  | staleElementReference
  | invalidSelector
  deriving DecidableEq, Repr

/-- Outcome of a raw selenium `element.click()` call when it fails: the four
exception kinds caught around each click in `browse.py`. -/
inductive ClickErr where
  | elementNotInteractable
  | elementClickIntercepted
  | staleElementReference
  | invalidElementState
  deriving DecidableEq, Repr

deriving instance DecidableEq for Except

def SelFindErr.toExc : SelFindErr → Exc
  | .noSuchElement => .noSuchElement
  | .staleElementReference => .staleElementReference
  | .invalidSelector => .invalidSelector

def ClickErr.toExc : ClickErr → Exc
  | .elementNotInteractable => .elementNotInteractable
  | .elementClickIntercepted => .elementClickIntercepted
  | .staleElementReference => .staleElementReference
  | .invalidElementState => .invalidElementState

/-- Lift a raw lookup outcome (found element of type `α`, or thrown selenium
exception) into the exception monad. -/
def liftFind {α : Type} : Except SelFindErr α → Except Exc α
  | .ok a => .ok a
  | .error e => .error e.toExc

/-- Lift a click outcome (`none` = the click succeeded). -/
def liftClick : Option ClickErr → Except Exc Unit
  | none => .ok ()
  | some e => .error e.toExc

/-- Python `try/except (…) as e: handler` around a computation: exceptions in
`caught` are handed to the handler, every other exception propagates. -/
def tryExcept {α : Type} (r : Except Exc α) (caught : List Exc)
    (handler : Exc → Except Exc α) : Except Exc α :=
  match r with
  | .ok a => .ok a
  | .error e => if e ∈ caught then handler e else .error e

/-- The exception tuple caught at every card-scoped `find_element` site:
`(NoSuchElementException, StaleElementReferenceException, InvalidSelectorException)`. -/
def cardFindCaught : List Exc :=
  [.noSuchElement, .staleElementReference, .invalidSelector]

/-- The exception tuple caught around each `click()`:
`(ElementNotInteractableException, ElementClickInterceptedException,
StaleElementReferenceException, InvalidElementStateException)`. -/
def clickCaught : List Exc :=
  [.elementNotInteractable, .elementClickIntercepted,
   .staleElementReference, .invalidElementState]

/-- The five custom exceptions caught (and wrapped) by the Gate
`send_connect_inline`. -/
def gateCaught : List Exc :=
  [.insightsNotFound, .insightParse, .lowMutualConnections,
   .connectButtonError, .popupButtonError]

/-- The inline connect button of a card: whether `is_enabled()` returns true,
and the outcome of `click()` (`none` = success). -/
structure ConnectButton where
  enabled : Bool
  clickResult : Option ClickErr
  deriving DecidableEq, Repr

/-- The page-wide "Send without a note" popup button: its `.text` and the
outcome of `click()`. -/
structure PopupButton where
  text : String
  clickResult : Option ClickErr
  deriving DecidableEq, Repr

/-- One search-result card (`div.linked-area`).  Each field records the
outcome of the corresponding selenium interaction performed by `browse.py`:

* `insightsFind` — `card.find_element(By.CSS_SELECTOR, "div.entity-result__insights")`
  followed by reading `.text` (the `.ok` payload is that text);
* `connectFind` — `card.find_element(By.XPATH, ".//button[…connect…]")`;
* `linkFind` — `card.find_element(By.XPATH, ".//a[contains(@href, '/in/')]")`
  followed by `get_attribute("href")` (selenium returns `None` when the
  attribute is absent, hence the `Option String` payload). -/
structure Card where
  insightsFind : Except SelFindErr String
  connectFind : Except SelFindErr ConnectButton
  linkFind : Except SelFindErr (Option String)
  deriving DecidableEq, Repr

/-- The page-level browsing state the core consults: the outcome of the raw
`driver.find_element` for the popup button (an element, or a thrown
exception — `BrowserClient.find_element` converts the latter to `None`). -/
structure Browser where
  popupDriver : Except Exc PopupButton
  deriving DecidableEq, Repr

/-- `BrowserClient.find_element` (`BrowserClient.py` lines 19–23): delegates to
the raw driver lookup and converts **any** thrown exception to `None` —
absence is returned as a first-class `Option`, never raised. -/
def BrowserClient.find_element (driverResult : Except Exc PopupButton) :
    Option PopupButton :=
  match driverResult with
  | .ok e => some e
  | .error _ => none

/-- UI interactions performed while processing one card, in order. -/
inductive UIAction where
  | insightsLookup
  | parseInsights
  | connectLookup
  | connectClick
  | popupLookup
  | popupClick
  deriving DecidableEq, Repr

/-- `MIN_MUTUAL_CONNECTIONS_TO_SEND_CONNECT` (`browse.py` line 41). -/
def MIN_MUTUAL_CONNECTIONS_TO_SEND_CONNECT : Nat := 10

/-! ## Insight Parser -/

/-- Worker for `re.findall(r'\d+', s)`: scans the characters, accumulating the
current digit run in `cur` (reversed; `[]` = not inside a run), and emits each
maximal run when it ends. -/
def findallAux : List Char → List Char → List (List Char)
  | [], cur => if cur.isEmpty then [] else [cur.reverse]
  | c :: cs, cur =>
    if c.isDigit then findallAux cs (c :: cur)
    else if cur.isEmpty then findallAux cs []
    else cur.reverse :: findallAux cs []

/-- `re.findall(r'\d+', s)`: the list of maximal digit runs of `s`, in order. -/
def findallDigits (l : List Char) : List (List Char) := findallAux l []

/-- `int(…)` on a digit string: its decimal value. -/
def natOfDigits (ds : List Char) : Nat :=
  ds.foldl (fun n c => n * 10 + (c.toNat - 48)) 0

/-- `get_mutual_connection_count_from_card_insights_text` (`browse.py`
lines 67–81): `match = re.findall(r'\d+', insight_string)`; raise
`InsightParseException` unless exactly one run was found; else `int(match[0])`. -/
def get_mutual_connection_count_from_card_insights_text
    (insight_string : String) : Except Exc Nat :=
  let m : List (List Char) := findallDigits insight_string.data
  if m.length ≠ 1 then .error .insightParse
  else .ok (natOfDigits (m.headD []))

/-! ## Inline Connect Actuator -/

/-- The popup lookup step of the Actuator (`browse.py` lines 118–123):
`popup_button = browser.find_element(…)` never throws — it yields `None` on
absence — and the subsequent `print(popup_button.text)` on `None` raises
`AttributeError`.  On a found element, reading `.text` succeeds. -/
def popupLookupStep (browser : Browser) : Except Exc PopupButton :=
  match BrowserClient.find_element browser.popupDriver with
  | some popup_button => .ok popup_button
  | none => .error .attributeError

/-- `__send_connect_inline` (`browse.py` lines 83–131), the Actuator, paired
with its action trace:
1. locate the connect button (catching the three lookup exceptions as
   `ConnectButtonError`);
2. `is_enabled()` check — disabled raises `ConnectButtonError` with no click;
3. `click()` (catching the four click exceptions as `ConnectButtonError`);
4. popup lookup via `browser.find_element` + `print(popup_button.text)`,
   wrapped in `except (NoSuchElement…, Stale…, InvalidSelector…)` →
   `PopupButtonError` — a tuple that does **not** include `AttributeError`;
5. `popup_button.click()` (catching the four click exceptions as
   `PopupButtonError`); returns `0` on success. -/
def __send_connect_inline (card : Card) (browser : Browser) :
    Except Exc Nat × List UIAction :=
  match tryExcept (liftFind card.connectFind) cardFindCaught
      (fun _ => .error .connectButtonError) with
  | .error e => (.error e, [.connectLookup])
  | .ok connect_button =>
    if connect_button.enabled = false then
      (.error .connectButtonError, [.connectLookup])
    else
      match tryExcept (liftClick connect_button.clickResult) clickCaught
          (fun _ => .error .connectButtonError) with
      | .error e => (.error e, [.connectLookup, .connectClick])
      | .ok _ =>
        match tryExcept (popupLookupStep browser) cardFindCaught
            (fun _ => .error .popupButtonError) with
        | .error e => (.error e, [.connectLookup, .connectClick, .popupLookup])
        | .ok popup_button =>
          match tryExcept (liftClick popup_button.clickResult) clickCaught
              (fun _ => .error .popupButtonError) with
          | .error e =>
            (.error e,
             [.connectLookup, .connectClick, .popupLookup, .popupClick])
          | .ok _ =>
            (.ok 0,
             [.connectLookup, .connectClick, .popupLookup, .popupClick])

/-! ## Card Eligibility Gate -/

/-- The body of the `try` block of `send_connect_inline` (`browse.py`
lines 150–165): insights lookup (absence → `InsightsNotFoundException`),
parse (may raise `InsightParseException`), threshold check
(`conn_count < MIN_…` → `LowMutualConnectionsError`), then the Actuator. -/
def send_connect_inline_body (card : Card) (browser : Browser) :
    Except Exc Nat × List UIAction :=
  match tryExcept (liftFind card.insightsFind) cardFindCaught
      (fun _ => .error .insightsNotFound) with
  | .error e => (.error e, [.insightsLookup])
  | .ok insightsText =>
    match get_mutual_connection_count_from_card_insights_text insightsText with
    | .error e => (.error e, [.insightsLookup, .parseInsights])
    | .ok conn_count =>
      if conn_count < MIN_MUTUAL_CONNECTIONS_TO_SEND_CONNECT then
        (.error .lowMutualConnections, [.insightsLookup, .parseInsights])
      else
        let r := __send_connect_inline card browser
        (r.1, [UIAction.insightsLookup, UIAction.parseInsights] ++ r.2)

/-- `send_connect_inline` (`browse.py` lines 134–169), the Gate: runs the body
and catches exactly the five custom exceptions, re-raising them as the
umbrella `InlineConnectException`; any other exception propagates unchanged. -/
def send_connect_inline (card : Card) (browser : Browser) :
    Except Exc Nat × List UIAction :=
  let r := send_connect_inline_body card browser
  (tryExcept r.1 gateCaught (fun _ => .error .inlineConnect), r.2)

/-! ## Search Result Collector -/

/-- The fallback link-extraction step of the Collector (`browse.py`
lines 196–202): locate the profile anchor and read its `href`, with the three
lookup exceptions swallowed (logged and skipped — modelled by the handler
yielding no href); append the href only when it is truthy (non-`None`,
non-empty) and not already collected. -/
def processFallback (acc : List String) (card : Card) : List String :=
  match tryExcept (liftFind card.linkFind) cardFindCaught (fun _ => .ok none) with
  | .error _ => acc
  | .ok href =>
    match href with
    | none => acc
    | some h => if h ≠ "" ∧ h ∉ acc then acc ++ [h] else acc

/-- The per-card loop of `get_search_results` (`browse.py` lines 189–203),
over the remaining cards with the accumulated `profile_links`:
with `try_inline`, a successful Gate call `continue`s (no URL collected),
`InlineConnectException` is caught and falls through to link extraction, and
any other exception propagates out of the loop. -/
def collectLoop (browser : Browser) (try_inline : Bool) :
    List Card → List String → Except Exc (List String)
  | [], profile_links => .ok profile_links
  | card :: cards, profile_links =>
    if try_inline then
      match (send_connect_inline card browser).1 with
      | .ok _ => collectLoop browser try_inline cards profile_links
      | .error e =>
        if e = Exc.inlineConnect then
          collectLoop browser try_inline cards (processFallback profile_links card)
        else .error e
    else
      collectLoop browser try_inline cards (processFallback profile_links card)

/-- `get_search_results` (`browse.py` lines 172–203): navigation and the
settle delay have no effect on the collected data; the page's cards are the
`find_elements` result (already a plain list).  An empty card list returns the
empty accumulator immediately; otherwise the per-card loop runs.  The result
is `.error e` when an exception escapes the loop. -/
def get_search_results (browser : Browser) (cards : List Card)
    (try_inline : Bool) : Except Exc (List String) :=
  if cards.length = 0 then .ok [] else collectLoop browser try_inline cards []

/-! ## Spec-side definitions (for refinement statements) -/

/-- The truthy `href` a card contributes on the fallback path, if any:
`some h` exactly when the anchor lookup succeeds, `get_attribute("href")` is
not `None`, and the href is non-empty. -/
def cardHref (card : Card) : Option String :=
  match card.linkFind with
  | .error _ => none
  | .ok none => none
  | .ok (some h) => if h = "" then none else some h

/-- Whether a card takes the fallback link-extraction path: always when
inline is disabled, and otherwise exactly when the Gate failed with the
umbrella `InlineConnectException`. -/
def takesFallback (browser : Browser) (try_inline : Bool) (card : Card) : Bool :=
  !try_inline ||
    decide ((send_connect_inline card browser).1 = Except.error Exc.inlineConnect)

/-- The raw sequence of truthy hrefs offered to the accumulator, in document
order (one per fallback-path card). -/
def rawHrefs (browser : Browser) (try_inline : Bool) (cards : List Card) :
    List String :=
  cards.filterMap (fun c =>
    if takesFallback browser try_inline c then cardHref c else none)

/-- Modelled from the spec: "deduplicated by exact string equality, first-seen
order preserved" — keep each element's first occurrence, dropping later
duplicates. -/
def firstSeenDedup : List String → List String
  | [] => []
  | a :: l => a :: (firstSeenDedup l).filter (fun b => b ≠ a)

/-! ## Concrete states used to exercise the definitions -/

/-- A connect button that is present, enabled, and clickable. -/
def workingConnectButton : ConnectButton :=
  { enabled := true, clickResult := none }

/-- A page on which the "Send without a note" confirmation is present and
clickable. -/
def workingBrowser : Browser :=
  { popupDriver := .ok { text := "Send without a note", clickResult := none } }

/-- A page on which the confirmation control never appears: the raw driver
lookup throws `NoSuchElementException`, which `BrowserClient.find_element`
converts to `None`. -/
def popupMissingBrowser : Browser :=
  { popupDriver := .error .noSuchElement }

/-- A card that parses to 12 mutual connections and whose connect flow works
up to the popup stage. -/
def popupMissingCard : Card :=
  { insightsFind := .ok "Ankit and 12 other mutual connections"
    connectFind := .ok workingConnectButton
    linkFind := .ok (some "https://www.linkedin.com/in/popup-missing") }

/-- A card with no insights region: the Gate fails with the umbrella
exception and the Collector falls back to harvesting its link. -/
def fallbackCard : Card :=
  { insightsFind := .error .noSuchElement
    connectFind := .ok workingConnectButton
    linkFind := .ok (some "https://www.linkedin.com/in/fallback") }

/-- A card whose connect button is present but disabled. -/
def disabledButtonCard : Card :=
  { insightsFind := .ok "Priya and 15 other mutual connections"
    connectFind := .ok { enabled := false, clickResult := none }
    linkFind := .ok (some "https://www.linkedin.com/in/disabled") }

/-- A card with 9 mutual connections (one below the threshold). -/
def lowCountCard : Card :=
  { insightsFind := .ok "Rahul and 9 other mutual connections"
    connectFind := .ok workingConnectButton
    linkFind := .ok (some "https://www.linkedin.com/in/low") }

/-- A card with exactly 10 mutual connections (at the threshold). -/
def thresholdCard : Card :=
  { insightsFind := .ok "Meera and 10 other mutual connections"
    connectFind := .ok workingConnectButton
    linkFind := .ok (some "https://www.linkedin.com/in/threshold") }

/-- A card with no insights region whose anchor carries the same href as
`dupCardB`. -/
def dupCardA : Card :=
  { insightsFind := .error .noSuchElement
    connectFind := .ok workingConnectButton
    linkFind := .ok (some "https://www.linkedin.com/in/same") }

/-- A second card yielding the same profile URL as `dupCardA`. -/
def dupCardB : Card :=
  { insightsFind := .error .staleElementReference
    connectFind := .ok workingConnectButton
    linkFind := .ok (some "https://www.linkedin.com/in/same") }

/-- A card whose anchor has an empty `href` attribute. -/
def emptyHrefCard : Card :=
  { insightsFind := .error .noSuchElement
    connectFind := .ok workingConnectButton
    linkFind := .ok (some "") }

/-- A card whose anchor has no `href` attribute
(`get_attribute` returns `None`). -/
def noHrefCard : Card :=
  { insightsFind := .error .noSuchElement
    connectFind := .ok workingConnectButton
    linkFind := .ok none }

/-! ## Helper lemmas -/

/-- The observable effect of the fallback link-extraction step: append the
card's truthy href unless it was already collected. -/
theorem processFallback_eq (acc : List String) (card : Card) :
    processFallback acc card =
      match cardHref card with
      | none => acc
      | some h => if h ∈ acc then acc else acc ++ [h] := by
  unfold processFallback cardHref
  cases hl : card.linkFind with
  | error se =>
    cases se <;>
      simp [liftFind, tryExcept, SelFindErr.toExc, cardFindCaught]
  | ok ho =>
    cases ho with
    | none => simp [liftFind, tryExcept]
    | some h =>
      by_cases hh : h = "" <;>
        by_cases hm : h ∈ acc <;>
          simp [liftFind, tryExcept, hh, hm]

/-- The Actuator's first recorded action is always the connect-button lookup. -/
theorem actuator_trace_head (card : Card) (browser : Browser) :
    UIAction.connectLookup ∈ (__send_connect_inline card browser).2 := by
  unfold __send_connect_inline
  split
  · simp
  · split
    · simp
    · split
      · simp
      · split <;> [simp; split <;> simp]

/-- Every Actuator outcome: success (`0`), one of its two documented failure
kinds, or the undocumented `AttributeError` from the popup-absence path. -/
theorem actuator_result_cases (card : Card) (browser : Browser) :
    (__send_connect_inline card browser).1 = .ok 0 ∨
    (__send_connect_inline card browser).1 = .error .connectButtonError ∨
    (__send_connect_inline card browser).1 = .error .popupButtonError ∨
    (__send_connect_inline card browser).1 = .error .attributeError := by
  unfold __send_connect_inline popupLookupStep BrowserClient.find_element
  cases hc : card.connectFind with
  | error se =>
    cases se <;>
      simp [liftFind, tryExcept, SelFindErr.toExc, cardFindCaught]
  | ok btn =>
    cases hen : btn.enabled with
    | false => simp [liftFind, tryExcept, hen]
    | true =>
      cases hclick : btn.clickResult with
      | some ce =>
        cases ce <;>
          simp [liftFind, liftClick, tryExcept, ClickErr.toExc, clickCaught,
            hen, hclick]
      | none =>
        cases hd : browser.popupDriver with
        | error pe =>
          simp [liftFind, liftClick, tryExcept, cardFindCaught, hen, hclick, hd]
        | ok popup =>
          cases hpc : popup.clickResult with
          | some ce =>
            cases ce <;>
              simp [liftFind, liftClick, tryExcept, ClickErr.toExc, clickCaught,
                cardFindCaught, hen, hclick, hd, hpc]
          | none =>
            simp [liftFind, liftClick, tryExcept, cardFindCaught, hen, hclick,
              hd, hpc]

/-- The only exception the Parser raises is `InsightParseException`. -/
theorem parser_error_kind (s : String) (e : Exc)
    (h : get_mutual_connection_count_from_card_insights_text s = .error e) :
    e = .insightParse := by
  unfold get_mutual_connection_count_from_card_insights_text at h
  by_cases hl : (findallDigits s.data).length ≠ 1 <;> simp [hl] at h
  exact h.symm

/-- Every Gate-body outcome: one of the three pre-actuator failures, or
whatever the Actuator produced. -/
theorem gate_body_result_cases (card : Card) (browser : Browser) :
    (send_connect_inline_body card browser).1 = .error .insightsNotFound ∨
    (send_connect_inline_body card browser).1 = .error .insightParse ∨
    (send_connect_inline_body card browser).1 = .error .lowMutualConnections ∨
    (send_connect_inline_body card browser).1 =
      (__send_connect_inline card browser).1 := by
  unfold send_connect_inline_body
  cases hi : card.insightsFind with
  | error se =>
    cases se <;>
      simp [liftFind, tryExcept, SelFindErr.toExc, cardFindCaught, hi]
  | ok text =>
    cases hp : get_mutual_connection_count_from_card_insights_text text with
    | error pe =>
      have hpe : pe = .insightParse := parser_error_kind text pe hp
      subst hpe
      simp [liftFind, tryExcept, hp, hi]
    | ok n =>
      by_cases hlt : n < MIN_MUTUAL_CONNECTIONS_TO_SEND_CONNECT <;>
        simp [liftFind, tryExcept, hp, hi, hlt]

/-- The Gate's result is its body's result filtered through the wrapping
`except` clause; its trace is the body's trace. -/
theorem gate_fst (card : Card) (browser : Browser) :
    (send_connect_inline card browser).1 =
      tryExcept (send_connect_inline_body card browser).1 gateCaught
        (fun _ => .error .inlineConnect) := rfl

theorem gate_snd (card : Card) (browser : Browser) :
    (send_connect_inline card browser).2 =
      (send_connect_inline_body card browser).2 := rfl

/-- Every Gate outcome: success, the umbrella exception, or the unwrapped
`AttributeError`. -/
theorem gate_result_cases (card : Card) (browser : Browser) :
    (send_connect_inline card browser).1 = .ok 0 ∨
    (send_connect_inline card browser).1 = .error .inlineConnect ∨
    (send_connect_inline card browser).1 = .error .attributeError := by
  rw [gate_fst]
  rcases gate_body_result_cases card browser with h | h | h | h
  · rw [h]; simp [tryExcept, gateCaught]
  · rw [h]; simp [tryExcept, gateCaught]
  · rw [h]; simp [tryExcept, gateCaught]
  · rw [h]
    rcases actuator_result_cases card browser with h2 | h2 | h2 | h2 <;>
      rw [h2] <;> simp [tryExcept, gateCaught]

/-! ## Claim theorems -/

/-- C7: a card whose insights region is absent fails with the
`InsightsNotFound` cause wrapped into the umbrella exception, with a trace
containing only the insights lookup — the Parser is never invoked and no
click (nor any actuator step) occurs, regardless of the card's button state. -/
theorem c7_insights_absent_short_circuits (card : Card) (browser : Browser)
    (e : SelFindErr) (h : card.insightsFind = .error e) :
    send_connect_inline_body card browser =
      (.error .insightsNotFound, [.insightsLookup]) ∧
    send_connect_inline card browser =
      (.error .inlineConnect, [.insightsLookup]) ∧
    UIAction.parseInsights ∉ (send_connect_inline card browser).2 ∧
    UIAction.connectClick ∉ (send_connect_inline card browser).2 ∧
    UIAction.popupClick ∉ (send_connect_inline card browser).2 := by
  have hbody : send_connect_inline_body card browser =
      (.error .insightsNotFound, [.insightsLookup]) := by
    unfold send_connect_inline_body
    cases e <;>
      simp [liftFind, tryExcept, SelFindErr.toExc, cardFindCaught, h]
  have hgate : send_connect_inline card browser =
      (.error .inlineConnect, [.insightsLookup]) := by
    unfold send_connect_inline
    rw [hbody]
    simp [tryExcept, gateCaught]
  refine ⟨hbody, hgate, ?_, ?_, ?_⟩ <;> rw [hgate] <;> simp

/-- Witness for C7: a concrete card with no insights region. -/
theorem c7_witness :
    fallbackCard.insightsFind = .error .noSuchElement ∧
    send_connect_inline fallbackCard workingBrowser =
      (.error .inlineConnect, [.insightsLookup]) := by
  have h := c7_insights_absent_short_circuits fallbackCard workingBrowser
    .noSuchElement rfl
  exact ⟨rfl, h.2.1⟩

/-- C8: a connect control that is present but disabled fails with
`ConnectButtonError`, with a trace containing only the connect lookup — the
control is not clicked and the popup confirmation lookup is never attempted. -/
theorem c8_disabled_connect_button_no_click (card : Card) (browser : Browser)
    (btn : ConnectButton) (hfind : card.connectFind = .ok btn)
    (hdis : btn.enabled = false) :
    __send_connect_inline card browser =
      (.error .connectButtonError, [.connectLookup]) ∧
    UIAction.connectClick ∉ (__send_connect_inline card browser).2 ∧
    UIAction.popupLookup ∉ (__send_connect_inline card browser).2 := by
  have h : __send_connect_inline card browser =
      (.error .connectButtonError, [.connectLookup]) := by
    unfold __send_connect_inline
    simp [liftFind, tryExcept, hfind, hdis]
  refine ⟨h, ?_, ?_⟩ <;> rw [h] <;> simp

/-- Witness for C8: a concrete card whose connect button is disabled. -/
theorem c8_witness :
    disabledButtonCard.connectFind =
      .ok { enabled := false, clickResult := none } ∧
    __send_connect_inline disabledButtonCard workingBrowser =
      (.error .connectButtonError, [.connectLookup]) := by
  have h := c8_disabled_connect_button_no_click disabledButtonCard
    workingBrowser { enabled := false, clickResult := none } rfl rfl
  exact ⟨rfl, h.1⟩

/-- C2 (code bug): on a card whose connect control was located, enabled and
clicked, when the page-wide confirmation lookup yields absence
(`BrowserClient.find_element` returns `None`), the Actuator does **not** fail
with `PopupButtonError` — `popup_button.text` on `None` raises
`AttributeError`, which the `except` tuple around the popup lookup does not
catch. -/
theorem c2_popup_absence_raises_attribute_error :
    BrowserClient.find_element popupMissingBrowser.popupDriver = none ∧
    (__send_connect_inline popupMissingCard popupMissingBrowser).1 =
      .error .attributeError ∧
    (__send_connect_inline popupMissingCard popupMissingBrowser).1 ≠
      .error .popupButtonError := by
  refine ⟨rfl, rfl, ?_⟩
  decide

/-- C6 (code bug): on the same card, the failure the Gate surfaces to its
caller is the raw `AttributeError` — a kind outside the five wrapped causes
and distinct from the umbrella `InlineConnectException`. -/
theorem c6_gate_raises_unwrapped_attribute_error :
    (send_connect_inline popupMissingCard popupMissingBrowser).1 =
      .error .attributeError ∧
    Exc.attributeError ∉ gateCaught ∧
    (send_connect_inline popupMissingCard popupMissingBrowser).1 ≠
      .error .inlineConnect := by
  refine ⟨?_, by decide, ?_⟩ <;> decide

/-- C1 (code bug): the same single-card failure escapes the Collector's loop.
With the popup-absent card alone the scan aborts with `AttributeError`; a
fallback card processed before it had already contributed a URL, and that
accumulated sequence is lost — the function does not return it. -/
theorem c1_single_card_failure_escapes_collector :
    get_search_results popupMissingBrowser [fallbackCard] true =
      .ok ["https://www.linkedin.com/in/fallback"] ∧
    get_search_results popupMissingBrowser [fallbackCard, popupMissingCard]
      true = .error .attributeError := by
  refine ⟨?_, ?_⟩ <;> decide

/-- C5: for a card whose insight text parses to count `n`, the Gate invokes
the Actuator (whose first step, the connect-button lookup, then appears in
the trace) if and only if `n ≥ MIN_MUTUAL_CONNECTIONS_TO_SEND_CONNECT`
(inclusive); below the threshold the body fails with the
`LowMutualConnections` cause, which the Gate wraps into the umbrella
exception. -/
theorem c5_gate_threshold (card : Card) (browser : Browser) (text : String)
    (n : Nat) (hins : card.insightsFind = .ok text)
    (hparse : get_mutual_connection_count_from_card_insights_text text =
      .ok n) :
    (UIAction.connectLookup ∈ (send_connect_inline card browser).2 ↔
      MIN_MUTUAL_CONNECTIONS_TO_SEND_CONNECT ≤ n) ∧
    (n < MIN_MUTUAL_CONNECTIONS_TO_SEND_CONNECT →
      (send_connect_inline_body card browser).1 =
        .error .lowMutualConnections ∧
      (send_connect_inline card browser).1 = .error .inlineConnect) := by
  by_cases hlt : n < MIN_MUTUAL_CONNECTIONS_TO_SEND_CONNECT
  · have hbody : send_connect_inline_body card browser =
        (.error .lowMutualConnections, [.insightsLookup, .parseInsights]) := by
      unfold send_connect_inline_body
      simp [liftFind, tryExcept, hins, hparse, hlt]
    constructor
    · rw [gate_snd, hbody]
      simp
      exact hlt
    · intro _
      refine ⟨by rw [hbody], ?_⟩
      rw [gate_fst, hbody]
      simp [tryExcept, gateCaught]
  · have hbody : send_connect_inline_body card browser =
        ((__send_connect_inline card browser).1,
         [UIAction.insightsLookup, UIAction.parseInsights] ++
           (__send_connect_inline card browser).2) := by
      unfold send_connect_inline_body
      simp [liftFind, tryExcept, hins, hparse, hlt]
    constructor
    · rw [gate_snd, hbody]
      simp [actuator_trace_head card browser]
      exact Nat.not_lt.mp hlt
    · intro h
      exact absurd h hlt

/-- Witness for C5: a 9-mutual-connection card never reaches the Actuator and
yields the umbrella failure; a 10-mutual-connection card reaches it. -/
theorem c5_witness :
    (UIAction.connectLookup ∉
      (send_connect_inline lowCountCard workingBrowser).2) ∧
    (send_connect_inline_body lowCountCard workingBrowser).1 =
      .error .lowMutualConnections ∧
    (send_connect_inline lowCountCard workingBrowser).1 =
      .error .inlineConnect ∧
    UIAction.connectLookup ∈
      (send_connect_inline thresholdCard workingBrowser).2 := by
  have h9 := c5_gate_threshold lowCountCard workingBrowser
    "Rahul and 9 other mutual connections" 9 rfl (by decide)
  have h10 := c5_gate_threshold thresholdCard workingBrowser
    "Meera and 10 other mutual connections" 10 rfl (by decide)
  have h9low := h9.2 (by decide)
  exact ⟨fun hmem => absurd (h9.1.mp hmem) (by decide),
         h9low.1, h9low.2, h10.1.mpr (by decide)⟩

/-- Every Collector-loop outcome: an accumulated list, or the escaped
`AttributeError` of the popup-absence path. -/
theorem collectLoop_result_cases (browser : Browser) (ti : Bool) :
    ∀ (cards : List Card) (acc : List String),
      (∃ l, collectLoop browser ti cards acc = .ok l) ∨
      collectLoop browser ti cards acc = .error .attributeError := by
  intro cards
  induction cards with
  | nil => intro acc; exact .inl ⟨acc, rfl⟩
  | cons c cs ih =>
    intro acc
    cases ti with
    | false => simpa [collectLoop] using ih (processFallback acc c)
    | true =>
      rcases gate_result_cases c browser with h | h | h
      · simpa [collectLoop, h] using ih acc
      · simpa [collectLoop, h] using ih (processFallback acc c)
      · simp [collectLoop, h]

/-- C3: 'not found' is a first-class absence result, never a thrown error
reaching the core's callers.  Page-scope: `BrowserClient.find_element` maps
every raw driver exception to `None`.  Card-scope: the selenium lookup
exceptions (`NoSuchElementException` and its two companions) are caught at
every call site in the core, so neither the Gate nor the Collector ever
surfaces one of them. -/
theorem c3_not_found_is_first_class_absence :
    (∀ (d : Except Exc PopupButton) (e : Exc), d = .error e →
      BrowserClient.find_element d = none) ∧
    (∀ (card : Card) (browser : Browser),
      (send_connect_inline card browser).1 ≠ .error .noSuchElement ∧
      (send_connect_inline card browser).1 ≠ .error .staleElementReference ∧
      (send_connect_inline card browser).1 ≠ .error .invalidSelector) ∧
    (∀ (browser : Browser) (cards : List Card) (ti : Bool),
      get_search_results browser cards ti ≠ .error .noSuchElement ∧
      get_search_results browser cards ti ≠ .error .staleElementReference ∧
      get_search_results browser cards ti ≠ .error .invalidSelector) := by
  refine ⟨?_, ?_, ?_⟩
  · intro d e h
    rw [h]
    rfl
  · intro card browser
    rcases gate_result_cases card browser with h | h | h <;>
      rw [h] <;> exact ⟨by simp, by simp, by simp⟩
  · intro browser cards ti
    unfold get_search_results
    by_cases hc : cards.length = 0
    · simp [hc]
    · rcases collectLoop_result_cases browser ti cards [] with ⟨l, h⟩ | h <;>
        simp [hc, h]

/-- Witness for C3: a concrete failed page-scope lookup yields `None`, and a
concrete Collector run never surfaces `NoSuchElementException` even though a
card-scoped insights lookup threw it. -/
theorem c3_witness :
    BrowserClient.find_element (.error .noSuchElement) = none ∧
    get_search_results workingBrowser [fallbackCard] true ≠
      .error .noSuchElement :=
  ⟨c3_not_found_is_first_class_absence.1 (.error .noSuchElement)
      .noSuchElement rfl,
   (c3_not_found_is_first_class_absence.2.2 workingBrowser [fallbackCard]
      true).1⟩

/-- Flattening the digit runs recovers exactly the digit characters of the
input, in order (with `cur` the pending run, reversed). -/
theorem findallAux_flatten (l : List Char) :
    ∀ cur : List Char,
      (findallAux l cur).flatten = cur.reverse ++ l.filter Char.isDigit := by
  induction l with
  | nil =>
    intro cur
    cases cur <;> simp [findallAux]
  | cons c cs ih =>
    intro cur
    by_cases hd : c.isDigit
    · simp [findallAux, hd, ih, List.filter_cons]
    · cases cur with
      | nil => simp [findallAux, hd, ih, List.filter_cons]
      | cons x xs => simp [findallAux, hd, ih, List.filter_cons]

/-- Every emitted digit run is a non-empty string of digits (given that the
pending run is all digits). -/
theorem findallAux_runs (l : List Char) :
    ∀ cur : List Char, cur.all Char.isDigit = true →
      ∀ r ∈ findallAux l cur, r ≠ [] ∧ r.all Char.isDigit = true := by
  induction l with
  | nil =>
    intro cur hcur r hr
    cases cur with
    | nil => simp [findallAux] at hr
    | cons x xs =>
      simp [findallAux] at hr
      subst hr
      refine ⟨by simp, ?_⟩
      simp at hcur ⊢
      tauto
  | cons c cs ih =>
    intro cur hcur r hr
    by_cases hd : c.isDigit
    · exact ih (c :: cur) (by simp [hd, hcur]) r
        (by simpa [findallAux, hd] using hr)
    · cases cur with
      | nil => exact ih [] (by simp) r (by simpa [findallAux, hd] using hr)
      | cons x xs =>
        rw [findallAux] at hr
        simp [hd] at hr
        rcases hr with rfl | hr
        · refine ⟨by simp, ?_⟩
          simp at hcur ⊢
          tauto
        · exact ih [] (by simp) r hr

/-- C4: when the input contains exactly one maximal digit run, the Parser
returns that run's integer value (the run is non-empty, all digits, and is
precisely the digit content of the string); when the input contains zero or
two-or-more digit runs, the Parser fails with `InsightParseException`.  The
embedding is a pure function of the input string, so it has no side effects
on it. -/
theorem c4_parser_unique_digit_run (s : String) :
    ((findallDigits s.data).length = 1 →
      findallDigits s.data = [s.data.filter Char.isDigit] ∧
      s.data.filter Char.isDigit ≠ [] ∧
      (s.data.filter Char.isDigit).all Char.isDigit = true ∧
      get_mutual_connection_count_from_card_insights_text s =
        .ok (natOfDigits (s.data.filter Char.isDigit))) ∧
    ((findallDigits s.data).length ≠ 1 →
      get_mutual_connection_count_from_card_insights_text s =
        .error .insightParse) := by
  constructor
  · intro h1
    obtain ⟨r, hr⟩ := List.length_eq_one.mp h1
    have hflat := findallAux_flatten s.data []
    rw [show findallAux s.data [] = findallDigits s.data from rfl, hr] at hflat
    simp at hflat
    have hmem : r ∈ findallAux s.data [] := by
      rw [show findallAux s.data [] = findallDigits s.data from rfl, hr]
      simp
    have hrun := findallAux_runs s.data [] (by simp) r hmem
    subst hflat
    refine ⟨hr, hrun.1, hrun.2, ?_⟩
    unfold get_mutual_connection_count_from_card_insights_text
    simp [hr]
  · intro h1
    unfold get_mutual_connection_count_from_card_insights_text
    simp [h1]

/-- Witness for C4: one digit run → its value; two runs or zero runs →
`InsightParseException`. -/
theorem c4_parser_witness :
    get_mutual_connection_count_from_card_insights_text
      "Ankit and 12 other mutual connections" = .ok 12 ∧
    get_mutual_connection_count_from_card_insights_text
      "10 mutual connections and 500 followers" = .error .insightParse ∧
    get_mutual_connection_count_from_card_insights_text
      "no mutual connections" = .error .insightParse := by
  refine ⟨?_, ?_, ?_⟩
  · exact ((c4_parser_unique_digit_run
      "Ankit and 12 other mutual connections").1 (by decide)).2.2.2.trans
      (by decide)
  · exact (c4_parser_unique_digit_run
      "10 mutual connections and 500 followers").2 (by decide)
  · exact (c4_parser_unique_digit_run
      "no mutual connections").2 (by decide)

/-- Two filters commute. -/
theorem filter_comm_helper {α : Type} (p q : α → Bool) (l : List α) :
    (l.filter q).filter p = (l.filter p).filter q := by
  rw [List.filter_filter, List.filter_filter]
  congr 1
  funext x
  exact Bool.and_comm _ _

/-- Filtering twice by the same predicate is filtering once. -/
theorem filter_idem_helper {α : Type} (p : α → Bool) (l : List α) :
    (l.filter p).filter p = l.filter p := by
  rw [List.filter_filter]
  congr 1
  funext x
  exact Bool.and_self _

/-- `firstSeenDedup` commutes with removing one value. -/
theorem firstSeenDedup_filter (a : String) :
    ∀ l : List String,
      firstSeenDedup (l.filter (fun b => b ≠ a)) =
        (firstSeenDedup l).filter (fun b => b ≠ a) := by
  intro l
  induction l with
  | nil => simp [firstSeenDedup]
  | cons c m ih =>
    by_cases hc : c = a
    · subst hc
      rw [List.filter_cons, if_neg (by simp)]
      simp only [firstSeenDedup, List.filter_cons]
      rw [if_neg (by simp), ih]
      exact (filter_idem_helper _ _).symm
    · rw [List.filter_cons]
      simp only [firstSeenDedup]
      rw [if_pos (by simp [hc])]
      simp only [firstSeenDedup, List.filter_cons]
      rw [if_pos (by simp [hc])]
      rw [ih, filter_comm_helper]

/-- Splitting off a new seen value from the not-yet-seen filter. -/
theorem notMem_append_filter (a : String) (acc m : List String) :
    m.filter (fun h => h ∉ acc ++ [a]) =
      (m.filter (fun h => h ∉ acc)).filter (fun h => h ≠ a) := by
  rw [List.filter_filter]
  congr 1
  funext x
  by_cases h1 : x = a <;> by_cases h2 : x ∈ acc <;> simp [h1, h2]

/-- Extending the accumulator by a freshly seen value drops it from the
deduplicated remainder. -/
theorem fsd_filter_step (a : String) (acc m : List String) :
    firstSeenDedup (m.filter (fun h => h ∉ acc ++ [a])) =
      (firstSeenDedup (m.filter (fun h => h ∉ acc))).filter
        (fun b => b ≠ a) := by
  rw [notMem_append_filter, firstSeenDedup_filter]

/-- The fallback step when the card offers no truthy href. -/
theorem processFallback_none (acc : List String) (card : Card)
    (h : cardHref card = none) : processFallback acc card = acc := by
  rw [processFallback_eq, h]

/-- The fallback step when the card offers the truthy href `a`. -/
theorem processFallback_some (acc : List String) (card : Card) (a : String)
    (h : cardHref card = some a) :
    processFallback acc card = if a ∈ acc then acc else acc ++ [a] := by
  rw [processFallback_eq, h]

/-- The Collector's loop invariant: whenever the loop returns normally, the
result extends the accumulator by the first-seen deduplication of the
not-yet-seen raw hrefs of the remaining cards. -/
theorem collectLoop_ok (browser : Browser) (ti : Bool) :
    ∀ (cards : List Card) (acc urls : List String),
      collectLoop browser ti cards acc = .ok urls →
      urls = acc ++ firstSeenDedup
        ((rawHrefs browser ti cards).filter (fun h => h ∉ acc)) := by
  intro cards
  induction cards with
  | nil =>
    intro acc urls h
    simp [collectLoop] at h
    simp [rawHrefs, firstSeenDedup, ← h]
  | cons c cs ih =>
    intro acc urls h
    have hfall : takesFallback browser ti c = true →
        collectLoop browser ti cs (processFallback acc c) = .ok urls →
        urls = acc ++ firstSeenDedup
          ((rawHrefs browser ti (c :: cs)).filter (fun h => h ∉ acc)) := by
      intro hTF h2
      have hraw : rawHrefs browser ti (c :: cs) =
          (cardHref c).toList ++ rawHrefs browser ti cs := by
        rw [rawHrefs, List.filterMap_cons, if_pos hTF]
        cases cardHref c <;> simp [rawHrefs]
      have hthis := ih (processFallback acc c) urls h2
      cases hch : cardHref c with
      | none =>
        rw [processFallback_none acc c hch] at hthis
        rw [hraw, hch]
        simpa using hthis
      | some a =>
        rw [processFallback_some acc c a hch] at hthis
        by_cases hmem : a ∈ acc
        · rw [if_pos hmem] at hthis
          rw [hraw, hch]
          simp only [Option.toList_some, List.singleton_append,
            List.filter_cons]
          rw [if_neg (by simpa using hmem)]
          exact hthis
        · rw [if_neg hmem] at hthis
          rw [fsd_filter_step] at hthis
          rw [hraw, hch]
          simp only [Option.toList_some, List.singleton_append,
            List.filter_cons]
          rw [if_pos (by simpa using hmem)]
          simp only [firstSeenDedup]
          rw [hthis]
          simp
    cases ti with
    | false =>
      exact hfall (by simp [takesFallback]) (by simpa [collectLoop] using h)
    | true =>
      rcases gate_result_cases c browser with hg | hg | hg
      · have hraw : rawHrefs browser true (c :: cs) =
            rawHrefs browser true cs := by
          rw [rawHrefs, List.filterMap_cons,
            if_neg (by simp [takesFallback, hg])]
          rfl
        rw [hraw]
        exact ih acc urls (by simpa [collectLoop, hg] using h)
      · exact hfall (by simp [takesFallback, hg])
          (by simpa [collectLoop, hg] using h)
      · rw [collectLoop] at h
        simp [hg] at h

/-- `firstSeenDedup` never produces duplicates. -/
theorem firstSeenDedup_nodup : ∀ l : List String, (firstSeenDedup l).Nodup := by
  intro l
  induction l with
  | nil => simp [firstSeenDedup]
  | cons a m ih =>
    rw [firstSeenDedup, List.nodup_cons]
    constructor
    · intro hmem
      simp [List.mem_filter] at hmem
    · exact ih.filter _

/-- `firstSeenDedup` only keeps elements of its input. -/
theorem mem_firstSeenDedup (x : String) :
    ∀ l : List String, x ∈ firstSeenDedup l → x ∈ l := by
  intro l
  induction l with
  | nil => simp [firstSeenDedup]
  | cons a m ih =>
    intro h
    rw [firstSeenDedup] at h
    rcases List.mem_cons.mp h with rfl | h2
    · exact List.mem_cons_self x m
    · exact List.mem_cons_of_mem a (ih (List.mem_of_mem_filter h2))

/-- A card's truthy href is never the empty string. -/
theorem cardHref_ne_empty (card : Card) (a : String)
    (hc : cardHref card = some a) : a ≠ "" := by
  unfold cardHref at hc
  split at hc
  · exact absurd hc (by simp)
  · exact absurd hc (by simp)
  · rename_i h
    split at hc
    · exact absurd hc (by simp)
    · rename_i hne
      rw [← Option.some.injEq] at hc
      simp at hc
      rw [← hc]
      exact hne

/-- Every raw fallback href is non-empty. -/
theorem mem_rawHrefs_ne_empty (browser : Browser) (ti : Bool)
    (cards : List Card) (a : String) (hmem : a ∈ rawHrefs browser ti cards) :
    a ≠ "" := by
  rw [rawHrefs] at hmem
  obtain ⟨c, _, hc⟩ := List.mem_filterMap.mp hmem
  by_cases hTF : takesFallback browser ti c = true
  · rw [if_pos hTF] at hc
    exact cardHref_ne_empty c a hc
  · rw [if_neg hTF] at hc
    exact absurd hc (by simp)

/-- C9: whenever the Collector returns a URL sequence, that sequence is
exactly the first-seen deduplication (by exact string equality) of the raw
hrefs offered by the fallback-path cards in document order — in particular
it contains no duplicate entries, and a URL yielded by two distinct cards
appears once, at its first occurrence's position. -/
theorem c9_collector_dedup_first_seen (browser : Browser) (cards : List Card)
    (ti : Bool) (urls : List String)
    (h : get_search_results browser cards ti = .ok urls) :
    urls = firstSeenDedup (rawHrefs browser ti cards) ∧ urls.Nodup := by
  have hurls : urls = firstSeenDedup (rawHrefs browser ti cards) := by
    unfold get_search_results at h
    by_cases hc : cards.length = 0
    · rw [if_pos hc] at h
      have hnil : cards = [] := List.length_eq_zero.mp hc
      subst hnil
      simp at h
      simp [rawHrefs, firstSeenDedup, ← h]
    · rw [if_neg hc] at h
      have := collectLoop_ok browser ti cards [] urls h
      simpa using this
  exact ⟨hurls, hurls ▸ firstSeenDedup_nodup _⟩

/-- Witness for C9: two cards yielding the same URL produce a single entry,
in first-seen position, with no duplicates. -/
theorem c9_witness :
    (["https://www.linkedin.com/in/same",
      "https://www.linkedin.com/in/fallback"] : List String) =
      firstSeenDedup
        (rawHrefs workingBrowser false [dupCardA, fallbackCard, dupCardB]) ∧
    (["https://www.linkedin.com/in/same",
      "https://www.linkedin.com/in/fallback"] : List String).Nodup :=
  c9_collector_dedup_first_seen workingBrowser [dupCardA, fallbackCard, dupCardB]
    false
    ["https://www.linkedin.com/in/same", "https://www.linkedin.com/in/fallback"]
    (by decide)

/-- C10: whenever the Collector returns a URL sequence, the empty string is
not among its elements, and a card whose fallback anchor has an absent or
empty href contributes nothing (its truthy href is `none`). -/
theorem c10_collector_hrefs_nonempty (browser : Browser) (cards : List Card)
    (ti : Bool) (urls : List String)
    (h : get_search_results browser cards ti = .ok urls) :
    "" ∉ urls ∧
    (∀ card : Card, card.linkFind = .ok none → cardHref card = none) ∧
    (∀ card : Card, card.linkFind = .ok (some "") → cardHref card = none) := by
  refine ⟨?_, ?_, ?_⟩
  · intro hmem
    have hurls : urls = firstSeenDedup (rawHrefs browser ti cards) := by
      unfold get_search_results at h
      by_cases hc : cards.length = 0
      · rw [if_pos hc] at h
        have hnil : cards = [] := List.length_eq_zero.mp hc
        subst hnil
        simp at h
        simp [rawHrefs, firstSeenDedup, ← h]
      · rw [if_neg hc] at h
        have := collectLoop_ok browser ti cards [] urls h
        simpa using this
    rw [hurls] at hmem
    exact mem_rawHrefs_ne_empty browser ti cards ""
      (mem_firstSeenDedup "" _ hmem) rfl
  · intro card hc
    simp [cardHref, hc]
  · intro card hc
    simp [cardHref, hc]

/-- Witness for C10: a concrete run whose cards include an absent-href and an
empty-href anchor returns only non-empty URLs, and those two cards offer no
href at all. -/
theorem c10_witness :
    "" ∉ (["https://www.linkedin.com/in/fallback"] : List String) ∧
    cardHref noHrefCard = none ∧
    cardHref emptyHrefCard = none := by
  have h := c10_collector_hrefs_nonempty workingBrowser
    [emptyHrefCard, noHrefCard, fallbackCard] false
    ["https://www.linkedin.com/in/fallback"] (by decide)
  exact ⟨h.1, h.2.1 noHrefCard rfl, h.2.2 emptyHrefCard rfl⟩
